import Mathlib

/-!
Verification of the dahua-day-night utility (src/dahua-day-night.py) against
its natural-language specification.  The script has three modes: a setup mode
writing a scheduling cron file, a camera-switch mode (flags `-c` and `-t`
both truthy), and a trigger-regeneration mode (both flags falsy) that queries
OpenWeatherMap for sunrise/sunset epochs and writes two cron trigger files
per configured camera.

The embedding below models the pure data flow of the script: HTTP traffic is
a function from URL to response, the filesystem is a function from path to
optional contents, write success is an oracle per path, and unhandled Python
exceptions are `Except` errors.
-/

namespace DahuaDayNight

/-- An unhandled Python exception terminating the run: a network failure,
a non-2xx weather response, or a missing field in the weather JSON. -/
inductive Fault where
  | network : Fault
  | badStatus : Nat → Fault
  | missingField : String → Fault
deriving Repr, DecidableEq

/-- The fields of the OpenWeatherMap response the script reads:
`data.sys.sunrise` and `data.sys.sunset`, both epoch seconds. -/
structure WeatherData where
  sunrise : Int
  sunset : Int
deriving Repr, DecidableEq

/-- An HTTP response as seen through the requests library:
status code, reason phrase and body text. -/
structure HttpResponse where
  status : Nat
  reason : String
  text : String
deriving Repr, DecidableEq

/-- One record of cameras.yaml, with the keys the script reads. -/
structure Camera where
  camera : String
  ip : String
  login : String
  password : String
  auth : String
  sunrise_url : String
  sunset_url : String
  notify : Bool
deriving Repr, DecidableEq

/-- The keys of config.yaml the script reads. -/
structure Config where
  api_key : String
  city_name : String
  sunset_adjustment : Int
  cron_directory : String
  scheduling_cron_file : String
  scheduling_cron_time : String
  scheduling_cron_user : String
  log_file : String
deriving Repr, DecidableEq

/-- The parsed command-line arguments (`argparse`): `-v`, `-s`, `-c`, `-t`.
The string flags default to None when absent. -/
structure Args where
  verbose : Bool
  setup : Bool
  camera : Option String
  time : Option String
deriving Repr, DecidableEq

/-- Python truthiness of an optional string: None and the empty string are
falsy, every other string is truthy. -/
def truthy : Option String → Bool
  | none => false
  | some s => !(s == "")

/-- Python `str.lower()`: lowercase every character. -/
def lower (s : String) : String := ⟨s.data.map Char.toLower⟩

/-- Concatenation of a list of lists (kept local for version stability). -/
def concatAll {α : Type} : List (List α) → List α
  | [] => []
  | l :: ls => l ++ concatAll ls

/-- The local-time minute of an epoch instant, given the fixed offset of the
local timezone in seconds (this is `dt.minute` after
`datetime.datetime.fromtimestamp`). -/
def localMinute (epoch_time tz_offset : Int) : Int :=
  ((epoch_time + tz_offset).ediv 60).emod 60

/-- The local-time hour of an epoch instant, given the fixed offset of the
local timezone in seconds (this is `dt.hour` after
`datetime.datetime.fromtimestamp`). -/
def localHour (epoch_time tz_offset : Int) : Int :=
  ((epoch_time + tz_offset).ediv 3600).emod 24

/-- Function `epoch_to_cron` of the script: convert an epoch to local time with
`fromtimestamp`, take the minute and hour, and format
`f"\x7bminute\x7d \x7bhour\x7d * * *"`. -/
def epoch_to_cron (epoch_time tz_offset : Int) : String :=
  let minute := localMinute epoch_time tz_offset
  let hour := localHour epoch_time tz_offset
  toString minute ++ " " ++ toString hour ++ " * * *"

/-- Line 20 of the script: `sunset_epoch = data[sys][sunset] + sunset_adjustment`. -/
def sunset_epoch (data : WeatherData) (sunset_adjustment : Int) : Int :=
  data.sunset + sunset_adjustment

/-- Function `get_times` of the script.  The weather fetch
(`requests.get` + `response.json()` + the `data[sys]` lookups) is the
`fetch` argument; any fault it raises propagates unhandled (there is no
try/except in `get_times`).  On success the sunset epoch is adjusted, the
sunrise epoch is not, and both are rendered through `epoch_to_cron`. -/
def get_times (fetch : String → String → Except Fault WeatherData)
    (api_key city_name : String) (sunset_adjustment tz_offset : Int) :
    Except Fault (String × String) :=
  match fetch api_key city_name with
  | Except.error f => Except.error f
  | Except.ok data =>
      let sunset := sunset_epoch data sunset_adjustment
      Except.ok (epoch_to_cron data.sunrise tz_offset, epoch_to_cron sunset tz_offset)

/-- Behaviour of `requests.Response.raise_for_status`: an error message exists exactly for
status codes in [400,500) (client error) and [500,600) (server error); all
other codes, including 1xx, 2xx and 3xx, raise nothing. -/
def http_error_msg (r : HttpResponse) (url : String) : Option String :=
  if 400 ≤ r.status ∧ r.status < 500 then
    some (toString r.status ++ " Client Error: " ++ r.reason ++ " for url: " ++ url)
  else if 500 ≤ r.status ∧ r.status < 600 then
    some (toString r.status ++ " Server Error: " ++ r.reason ++ " for url: " ++ url)
  else none

/-- The observable outcome of `switch_camera`: the URLs it performed GET
requests on, in order, and its Python return value (an error string, or
None when the function falls off the end). -/
structure SwitchResult where
  requests : List String
  ret : Option String
deriving Repr, DecidableEq

/-- Function `switch_camera` of the script, with the network as a function from URL
to response.  The transition string is `args.time`; the sunrise branch runs
when it lowercases to "sunrise" and the camera auth lowercases to "digest",
returning an error string when `raise_for_status` raises; the sunset branch
is symmetric.  Any other transition, or any other auth method, performs no
request and returns None. -/
def switch_camera (camera : Camera) (time : String)
    (net : String → HttpResponse) : SwitchResult :=
  if lower time == "sunrise" then
    if lower camera.auth == "digest" then
      let r := net camera.sunrise_url
      match http_error_msg r camera.sunrise_url with
      | some msg => ⟨[camera.sunrise_url], some ("Error: " ++ msg)⟩
      | none => ⟨[camera.sunrise_url], none⟩
    else ⟨[], none⟩
  else if lower time == "sunset" then
    if lower camera.auth == "digest" then
      let r := net camera.sunset_url
      match http_error_msg r camera.sunset_url with
      | some msg => ⟨[camera.sunset_url], some ("Error: " ++ msg)⟩
      | none => ⟨[camera.sunset_url], none⟩
    else ⟨[], none⟩
  else ⟨[], none⟩

/-- Writing a file: when the write oracle grants the path, the filesystem
maps that path to the new contents; otherwise (the IOError case) the
filesystem is unchanged. -/
def write_file (writeOk : String → Bool) (path contents : String)
    (fs : String → Option String) : String → Option String :=
  fun p => if writeOk path && (p == path) then some contents else fs p

/-- The observable behaviour of `create_camera_cron` for one camera: the
paths it attempts to write (always both), the paths whose write failed and
was logged, and the effect on the filesystem. -/
structure CronWrite where
  attempts : List String
  errors : List String
  apply : (String → Option String) → String → Option String

/-- Function `create_camera_cron` of the script: build the two file paths and the
two cron command lines, then write the sunrise file and the sunset file in
turn; an IOError on either write is printed (logged) and swallowed, so both
writes are always attempted and no fault escapes. -/
def create_camera_cron (sunrise sunset : String) (config : Config)
    (camera : Camera) (script_path : String) (writeOk : String → Bool) :
    CronWrite :=
  let sunrise_file := config.cron_directory ++ "/sunrise-" ++ camera.camera
  let sunset_file := config.cron_directory ++ "/sunset-" ++ camera.camera
  let sunrise_command := sunrise ++ " root " ++ script_path ++ " -c " ++ camera.camera ++ " -t sunrise"
  let sunset_command := sunset ++ " root " ++ script_path ++ " -c " ++ camera.camera ++ " -t sunset"
  ⟨[sunrise_file, sunset_file],
   (if writeOk sunrise_file then [] else [sunrise_file]) ++
     (if writeOk sunset_file then [] else [sunset_file]),
   fun fs =>
     write_file writeOk sunset_file (sunset_command ++ "\n")
       (write_file writeOk sunrise_file (sunrise_command ++ "\n") fs)⟩

/-- The environment of one run: parsed configuration, the records of
cameras.yaml in file order, the weather fetch outcome, the local timezone
offset, the network, the write oracle, the initial filesystem and the
realpath of the script. -/
structure Env where
  config : Config
  cameras : List Camera
  weather : Except Fault WeatherData
  tz_offset : Int
  net : String → HttpResponse
  writeOk : String → Bool
  fs0 : String → Option String
  script_path : String

/-- The observable outcome of one run of `main`: HTTP requests performed,
trigger-file paths attempted, logged write errors, whether cameras.yaml was
read, the names of the records `switch_camera` was invoked on, the final
filesystem, and the process outcome (ok = exit status 0, error = an
unhandled exception). -/
structure RunResult where
  http_requests : List String
  trigger_attempts : List String
  logged_errors : List String
  cameras_read : Bool
  switched : List String
  fs : String → Option String
  outcome : Except Fault Unit

/-- Function `main` of the script, restricted to the two flag-driven modes (the
setup mode only writes the separate scheduling cron file and is modelled as
a no-op on the trigger files).  When `args.camera and args.time` is truthy,
cameras.yaml is read and `switch_camera` is invoked on every record whose
name matches case-insensitively, in file order, and its return value is
discarded.  When both flags are falsy, `get_times` runs first — a fault
there terminates the run before cameras.yaml is read — and then
`create_camera_cron` runs for every record. -/
def main (args : Args) (env : Env) : RunResult :=
  if truthy args.camera && truthy args.time then
    let name := lower (args.camera.getD "")
    let t := args.time.getD ""
    let hits := env.cameras.filter (fun c => lower c.camera == name)
    let results := hits.map (fun c => switch_camera c t env.net)
    ⟨concatAll (results.map (fun r => r.requests)), [], [], true,
      hits.map (fun c => c.camera), env.fs0, Except.ok ()⟩
  else if !truthy args.camera && !truthy args.time then
    match get_times (fun _ _ => env.weather) env.config.api_key
        env.config.city_name env.config.sunset_adjustment env.tz_offset with
    | Except.error f => ⟨[], [], [], false, [], env.fs0, Except.error f⟩
    | Except.ok (sunrise, sunset) =>
        let outs := env.cameras.map (fun c =>
          create_camera_cron sunrise sunset env.config c env.script_path env.writeOk)
        ⟨[], concatAll (outs.map (fun o => o.attempts)),
          concatAll (outs.map (fun o => o.errors)), true, [],
          outs.foldl (fun fs o => o.apply fs) env.fs0, Except.ok ()⟩
  else
    ⟨[], [], [], false, [], env.fs0, Except.ok ()⟩


/-! Section: Concrete inputs used by witnesses and counterexamples -/

/-- A sample parsed config.yaml. -/
def cfgX : Config :=
  ⟨"key", "Atlanta", -1800, "/etc/cron.d", "/etc/cron.d/dahua-scheduler",
   "0 3 * * *", "root", "/var/log/dahua.log"⟩

/-- A digest-auth camera record named front. -/
def camFront : Camera :=
  ⟨"front", "10.0.0.2", "admin", "pw", "digest",
   "http://cam1/day", "http://cam1/night", false⟩

/-- A second record with the same name front but different URLs. -/
def camFront2 : Camera :=
  ⟨"front", "10.0.0.3", "admin", "pw", "digest",
   "http://cam2/day", "http://cam2/night", false⟩

/-- A camera record with a non-digest auth method. -/
def camBasic : Camera :=
  ⟨"side", "10.0.0.4", "admin", "pw", "basic",
   "http://cam3/day", "http://cam3/night", false⟩

/-- A network where every GET answers 200 OK. -/
def net200 : String → HttpResponse := fun _ => ⟨200, "OK", "OK"⟩

/-- A network where every GET answers 304 Not Modified (non-2xx, non-error). -/
def net304 : String → HttpResponse := fun _ => ⟨304, "Not Modified", ""⟩

/-- A network where every GET answers 404 Not Found. -/
def net404 : String → HttpResponse := fun _ => ⟨404, "Not Found", ""⟩

/-- An environment whose camera list holds two records both named front. -/
def envC1 : Env :=
  ⟨cfgX, [camFront, camFront2], Except.ok ⟨1700000000, 1700040000⟩, 0, net200,
   fun _ => true, fun _ => none, "/opt/dahua-day-night.py"⟩

/-- An environment with one camera and a successful weather fetch. -/
def envC10 : Env :=
  ⟨cfgX, [camFront], Except.ok ⟨1700000000, 1700040000⟩, 0, net200,
   fun _ => true, fun _ => none, "/opt/dahua-day-night.py"⟩

/-- An environment whose weather fetch raises a network fault. -/
def envErr : Env :=
  ⟨cfgX, [camFront], Except.error Fault.network, 0, net200,
   fun _ => true, fun _ => none, "/opt/dahua-day-night.py"⟩

/-- An environment whose cron directory rejects every write. -/
def envFail : Env :=
  ⟨cfgX, [camFront], Except.ok ⟨1700000000, 1700040000⟩, 0, net200,
   fun _ => false, fun _ => none, "/opt/dahua-day-night.py"⟩

/-! Section: Helper lemmas -/

/-- Writing the same two files with the same contents twice is the same as
writing them once, whatever the write oracle grants. -/
theorem write_file_write_file_idem (ok : String → Bool) (p1 c1 p2 c2 : String)
    (fs : String → Option String) :
    write_file ok p2 c2 (write_file ok p1 c1 (write_file ok p2 c2 (write_file ok p1 c1 fs))) =
      write_file ok p2 c2 (write_file ok p1 c1 fs) := by
  funext p
  simp only [write_file]
  by_cases h2 : (ok p2 && (p == p2)) = true
  · simp [h2]
  · by_cases h1 : (ok p1 && (p == p1)) = true
    · simp [h1, h2]
    · simp [h1, h2]

/-! Section: C5: epoch_to_cron encodes the local hour and minute -/

/-- C5: for every epoch instant and timezone offset, `epoch_to_cron` renders
exactly the local-time minute and hour of the instant, the hour lies in
[0,23], the minute lies in [0,59], and the day-of-month, month and
day-of-week fields are wildcards. -/
theorem epoch_to_cron_encodes_local_time (t off : Int) :
    epoch_to_cron t off =
      toString (localMinute t off) ++ " " ++ toString (localHour t off) ++ " * * *" ∧
    0 ≤ localHour t off ∧ localHour t off < 24 ∧
    0 ≤ localMinute t off ∧ localMinute t off < 60 :=
  ⟨rfl, Int.emod_nonneg _ (by norm_num), Int.emod_lt_of_pos _ (by norm_num),
   Int.emod_nonneg _ (by norm_num), Int.emod_lt_of_pos _ (by norm_num)⟩

/-! Section: C4: only the sunset epoch is adjusted -/

/-- C4: when the weather fetch succeeds, `get_times` schedules from the raw
sunrise epoch unchanged and from the raw sunset epoch plus the adjustment;
in particular raw sunset 1700040000 with adjustment -1800 gives sunset
epoch 1700038200. -/
theorem get_times_adjusts_sunset_only
    (fetch : String → String → Except Fault WeatherData)
    (api_key city_name : String) (adj off : Int) (d : WeatherData)
    (h : fetch api_key city_name = Except.ok d) :
    get_times fetch api_key city_name adj off =
      Except.ok (epoch_to_cron d.sunrise off, epoch_to_cron (d.sunset + adj) off) ∧
    sunset_epoch ⟨1700000000, 1700040000⟩ (-1800) = 1700038200 := by
  refine ⟨?_, by decide⟩
  unfold get_times
  rw [h]
  rfl

/-- Witness for C4 at the concrete epochs of the scenario. -/
theorem get_times_adjusts_sunset_only_witness :
    get_times (fun _ _ => Except.ok ⟨1700000000, 1700040000⟩) "key" "Atlanta" (-1800) 0 =
      Except.ok (epoch_to_cron 1700000000 0, epoch_to_cron (1700040000 + -1800) 0) ∧
    sunset_epoch ⟨1700000000, 1700040000⟩ (-1800) = 1700038200 :=
  get_times_adjusts_sunset_only _ "key" "Atlanta" (-1800) 0 ⟨1700000000, 1700040000⟩ rfl

/-! Section: C8: non-digest auth is a silent no-op -/

/-- C8: for a camera whose auth method does not lowercase to digest and a
transition lowercasing to sunrise or sunset, `switch_camera` performs no
HTTP request and returns None. -/
theorem switch_camera_non_digest_noop (camera : Camera) (time : String)
    (net : String → HttpResponse)
    (hauth : lower camera.auth ≠ "digest")
    (ht : lower time = "sunrise" ∨ lower time = "sunset") :
    switch_camera camera time net = ⟨[], none⟩ := by
  have hb : (lower camera.auth == "digest") = false := by simp [hauth]
  rcases ht with h | h
  · simp [switch_camera, h, hb]
  · have h1 : (("sunset" : String) == "sunrise") = false := by decide
    simp [switch_camera, h, h1, hb]

/-- Witness for C8: a basic-auth camera asked to switch to sunrise. -/
theorem switch_camera_non_digest_noop_witness :
    switch_camera camBasic "sunrise" net200 = ⟨[], none⟩ :=
  switch_camera_non_digest_noop camBasic "sunrise" net200 (by decide) (Or.inl (by decide))

/-! Section: C9: an unknown transition is silently ignored -/

/-- C9: for a transition string that lowercases to neither sunrise nor
sunset, `switch_camera` performs no HTTP request and returns None, whatever
the auth method. -/
theorem switch_camera_invalid_transition_noop (camera : Camera) (time : String)
    (net : String → HttpResponse)
    (h1 : lower time ≠ "sunrise") (h2 : lower time ≠ "sunset") :
    switch_camera camera time net = ⟨[], none⟩ := by
  have b1 : (lower time == "sunrise") = false := by simp [h1]
  have b2 : (lower time == "sunset") = false := by simp [h2]
  simp [switch_camera, b1, b2]

/-- Witness for C9: a digest camera asked to switch to noon. -/
theorem switch_camera_invalid_transition_noop_witness :
    switch_camera camFront "noon" net200 = ⟨[], none⟩ :=
  switch_camera_invalid_transition_noop camFront "noon" net200 (by decide) (by decide)

/-! Section: C6: trigger-definition writing is idempotent -/

/-- C6: writing the two trigger-definition files of a camera twice with
identical inputs leaves the filesystem exactly as writing them once does,
so the file contents are byte-identical both times. -/
theorem create_camera_cron_idempotent (sunrise sunset : String) (config : Config)
    (camera : Camera) (script_path : String) (writeOk : String → Bool)
    (fs : String → Option String) :
    (create_camera_cron sunrise sunset config camera script_path writeOk).apply
        ((create_camera_cron sunrise sunset config camera script_path writeOk).apply fs) =
      (create_camera_cron sunrise sunset config camera script_path writeOk).apply fs :=
  write_file_write_file_idem writeOk _ _ _ _ fs

/-! Section: C2: digest-auth switch and HTTP status errors -/

/-- C2 (amended): with digest auth and a sunrise or sunset transition,
`switch_camera` returns an error string carrying the HTTP status when the
response status is 4xx or 5xx, and returns no error when it is 2xx (a 1xx
or 3xx status also returns no error, since `raise_for_status` only raises
for 4xx and 5xx). -/
theorem switch_camera_http_status_errors (camera : Camera) (time : String)
    (net : String → HttpResponse) (url : String)
    (hauth : lower camera.auth = "digest")
    (hurl : (lower time = "sunrise" ∧ url = camera.sunrise_url) ∨
            (lower time = "sunset" ∧ url = camera.sunset_url)) :
    (400 ≤ (net url).status ∧ (net url).status < 600 →
      ∃ rest, (switch_camera camera time net).ret =
        some ("Error: " ++ toString (net url).status ++ rest)) ∧
    (200 ≤ (net url).status ∧ (net url).status < 300 →
      (switch_camera camera time net).ret = none) := by
  have hb : (lower camera.auth == "digest") = true := by simp [hauth]
  rcases hurl with ⟨htime, hu⟩ | ⟨htime, hu⟩ <;> subst hu
  · have hbt : (lower time == "sunrise") = true := by rw [htime]; decide
    constructor
    · rintro ⟨h4, h6⟩
      by_cases h5 : (net camera.sunrise_url).status < 500
      · refine ⟨" Client Error: " ++ (net camera.sunrise_url).reason ++ " for url: " ++
          camera.sunrise_url, ?_⟩
        simp [switch_camera, hbt, hb, http_error_msg, h4, h5, String.append_assoc]
      · have h5a : 500 ≤ (net camera.sunrise_url).status := by omega
        refine ⟨" Server Error: " ++ (net camera.sunrise_url).reason ++ " for url: " ++
          camera.sunrise_url, ?_⟩
        simp [switch_camera, hbt, hb, http_error_msg, h5, h5a, h6, String.append_assoc]
    · rintro ⟨h2, h3⟩
      have hf1 : ¬(400 ≤ (net camera.sunrise_url).status ∧
          (net camera.sunrise_url).status < 500) := by omega
      have hf2 : ¬(500 ≤ (net camera.sunrise_url).status ∧
          (net camera.sunrise_url).status < 600) := by omega
      simp [switch_camera, hbt, hb, http_error_msg, hf1, hf2]
  · have hbf : (lower time == "sunrise") = false := by rw [htime]; decide
    have hbt : (lower time == "sunset") = true := by rw [htime]; decide
    constructor
    · rintro ⟨h4, h6⟩
      by_cases h5 : (net camera.sunset_url).status < 500
      · refine ⟨" Client Error: " ++ (net camera.sunset_url).reason ++ " for url: " ++
          camera.sunset_url, ?_⟩
        simp [switch_camera, hbf, hbt, hb, http_error_msg, h4, h5, String.append_assoc]
      · have h5a : 500 ≤ (net camera.sunset_url).status := by omega
        refine ⟨" Server Error: " ++ (net camera.sunset_url).reason ++ " for url: " ++
          camera.sunset_url, ?_⟩
        simp [switch_camera, hbf, hbt, hb, http_error_msg, h5, h5a, h6, String.append_assoc]
    · rintro ⟨h2, h3⟩
      have hf1 : ¬(400 ≤ (net camera.sunset_url).status ∧
          (net camera.sunset_url).status < 500) := by omega
      have hf2 : ¬(500 ≤ (net camera.sunset_url).status ∧
          (net camera.sunset_url).status < 600) := by omega
      simp [switch_camera, hbf, hbt, hb, http_error_msg, hf1, hf2]

/-- Counterexample to C2 as stated: a 304 response is not 2xx, yet the
switch performs the request and returns no error string at all. -/
theorem switch_camera_non2xx_error_refuted :
    ¬(200 ≤ (net304 camFront.sunrise_url).status ∧
        (net304 camFront.sunrise_url).status < 300) ∧
    (switch_camera camFront "sunrise" net304).requests = [camFront.sunrise_url] ∧
    (switch_camera camFront "sunrise" net304).ret = none :=
  ⟨by decide, by decide, by decide⟩

/-- Witness for the amended C2 at a concrete 200 response. -/
theorem switch_camera_http_status_errors_witness :
    (switch_camera camFront "sunrise" net200).ret = none := by
  have h := switch_camera_http_status_errors camFront "sunrise" net200
    camFront.sunrise_url (by decide) (Or.inl ⟨by decide, rfl⟩)
  exact h.2 (by decide)

/-! Section: C1: the switch loop visits every matching record -/

/-- C1 (amended): in camera-switch mode the script invokes `switch_camera`
on every record whose name matches case-insensitively, in file order, not
only on the first one. -/
theorem main_switches_every_matching_record (args : Args) (env : Env)
    (name t : String)
    (hc : args.camera = some name) (ht : args.time = some t)
    (hn : name ≠ "") (htt : t ≠ "") :
    (main args env).switched =
      (env.cameras.filter (fun c => lower c.camera == lower name)).map
        (fun c => c.camera) ∧
    (main args env).http_requests =
      concatAll ((env.cameras.filter (fun c => lower c.camera == lower name)).map
        (fun c => (switch_camera c t env.net).requests)) := by
  have h1 : truthy (some name) = true := by simp [truthy, hn]
  have h2 : truthy (some t) = true := by simp [truthy, htt]
  simp [main, hc, ht, h1, h2, List.map_map]
  rfl

/-- Counterexample to C1 as stated: with two records named front the run
performs a GET for both records and switches both, so the second matching
record is reached. -/
theorem main_first_match_only_refuted :
    (main (Args.mk false false (some "front") (some "sunrise")) envC1).http_requests =
      ["http://cam1/day", "http://cam2/day"] ∧
    (main (Args.mk false false (some "front") (some "sunrise")) envC1).switched =
      ["front", "front"] :=
  ⟨by decide, by decide⟩

/-- Witness for the amended C1 on the duplicate-name camera list. -/
theorem main_switches_every_matching_record_witness :
    (main (Args.mk false false (some "front") (some "sunrise")) envC1).switched =
      (envC1.cameras.filter (fun c => lower c.camera == lower "front")).map
        (fun c => c.camera) := by
  have h := main_switches_every_matching_record
    (Args.mk false false (some "front") (some "sunrise")) envC1 "front" "sunrise"
    rfl rfl (by decide) (by decide)
  exact h.1

/-! Section: C3: a weather fault terminates the regeneration run -/

/-- C3: in trigger-regeneration mode a fault in the weather query makes the
run terminate with that fault before cameras.yaml is read and before any
trigger-definition file is attempted or written. -/
theorem main_weather_fault_terminates (args : Args) (env : Env) (f : Fault)
    (hc : truthy args.camera = false) (ht : truthy args.time = false)
    (hw : env.weather = Except.error f) :
    (main args env).outcome = Except.error f ∧
    (main args env).cameras_read = false ∧
    (main args env).trigger_attempts = [] ∧
    (main args env).fs = env.fs0 := by
  simp [main, hc, ht, get_times, hw]

/-- Witness for C3 at a concrete network fault. -/
theorem main_weather_fault_terminates_witness :
    (main (Args.mk false false none none) envErr).outcome = Except.error Fault.network ∧
    (main (Args.mk false false none none) envErr).cameras_read = false ∧
    (main (Args.mk false false none none) envErr).trigger_attempts = [] ∧
    (main (Args.mk false false none none) envErr).fs = envErr.fs0 :=
  main_weather_fault_terminates (Args.mk false false none none) envErr Fault.network
    rfl rfl rfl

/-! Section: C7: write failures are logged, never escalated -/

/-- Membership in a concatenation of lists. -/
theorem mem_concatAll {α : Type} {x : α} {ls : List (List α)} :
    x ∈ concatAll ls ↔ ∃ l, l ∈ ls ∧ x ∈ l := by
  induction ls with
  | nil => simp [concatAll]
  | cons l ls ih => simp [concatAll, ih]

/-- A failed write of either trigger file is recorded among the logged
errors of `create_camera_cron`. -/
theorem cron_attempts_errors (sunrise sunset : String) (config : Config)
    (camera : Camera) (script_path : String) (writeOk : String → Bool) (p : String)
    (hp : p ∈ (create_camera_cron sunrise sunset config camera script_path writeOk).attempts)
    (hw : writeOk p = false) :
    p ∈ (create_camera_cron sunrise sunset config camera script_path writeOk).errors := by
  simp only [create_camera_cron, List.mem_cons, List.not_mem_nil, or_false] at hp
  simp only [create_camera_cron, List.mem_append]
  rcases hp with h | h <;> subst h <;> simp [hw]

/-- The shape of a trigger-regeneration run whose weather fetch succeeds. -/
theorem main_regen_eq (args : Args) (env : Env) (d : WeatherData)
    (hc : truthy args.camera = false) (ht : truthy args.time = false)
    (hw : env.weather = Except.ok d) :
    main args env =
      ⟨[],
        concatAll ((env.cameras.map (fun c => create_camera_cron
          (epoch_to_cron d.sunrise env.tz_offset)
          (epoch_to_cron (sunset_epoch d env.config.sunset_adjustment) env.tz_offset)
          env.config c env.script_path env.writeOk)).map (fun o => o.attempts)),
        concatAll ((env.cameras.map (fun c => create_camera_cron
          (epoch_to_cron d.sunrise env.tz_offset)
          (epoch_to_cron (sunset_epoch d env.config.sunset_adjustment) env.tz_offset)
          env.config c env.script_path env.writeOk)).map (fun o => o.errors)),
        true, [],
        (env.cameras.map (fun c => create_camera_cron
          (epoch_to_cron d.sunrise env.tz_offset)
          (epoch_to_cron (sunset_epoch d env.config.sunset_adjustment) env.tz_offset)
          env.config c env.script_path env.writeOk)).foldl (fun fs o => o.apply fs) env.fs0,
        Except.ok ()⟩ := by
  simp [main, hc, ht, get_times, hw]

/-- C7: in trigger-regeneration mode, whatever writes fail, both trigger
files are attempted for every camera in the list, every failed write is
logged, no fault escalates, and the run finishes with exit status 0. -/
theorem create_camera_cron_best_effort (args : Args) (env : Env) (d : WeatherData)
    (hc : truthy args.camera = false) (ht : truthy args.time = false)
    (hw : env.weather = Except.ok d) :
    (main args env).outcome = Except.ok () ∧
    (main args env).trigger_attempts = concatAll (env.cameras.map (fun c =>
      [env.config.cron_directory ++ "/sunrise-" ++ c.camera,
       env.config.cron_directory ++ "/sunset-" ++ c.camera])) ∧
    (∀ p, p ∈ (main args env).trigger_attempts → env.writeOk p = false →
      p ∈ (main args env).logged_errors) := by
  rw [main_regen_eq args env d hc ht hw]
  refine ⟨rfl, ?_, ?_⟩
  · simp only [List.map_map]
    rfl
  · intro p hp hwp
    simp only [mem_concatAll, List.mem_map] at hp ⊢
    obtain ⟨l, ⟨o, ⟨c, hcmem, rfl⟩, rfl⟩, hpl⟩ := hp
    exact ⟨_, ⟨_, ⟨c, hcmem, rfl⟩, rfl⟩,
      cron_attempts_errors _ _ _ _ _ _ p hpl hwp⟩

/-- Witness for C7: an unwritable cron directory still exits 0, attempts
both files of the single camera and logs both failures. -/
theorem create_camera_cron_best_effort_witness :
    (main (Args.mk false false none none) envFail).outcome = Except.ok () ∧
    "/etc/cron.d/sunrise-front" ∈ (main (Args.mk false false none none) envFail).logged_errors := by
  have h := create_camera_cron_best_effort (Args.mk false false none none) envFail
    ⟨1700000000, 1700040000⟩ rfl rfl rfl
  exact ⟨h.1, h.2.2 "/etc/cron.d/sunrise-front" (by decide) rfl⟩

/-! Section: C10: a single flag runs neither mode -/

/-- C10 (amended): when exactly one of the camera-name and transition flags
is truthy (present with a non-empty value), neither the camera-switch mode
nor the trigger-regeneration mode runs: cameras.yaml is not read, no HTTP
request is made, no trigger file is attempted, the filesystem is unchanged
and the run exits 0. -/
theorem main_single_flag_noop (args : Args) (env : Env)
    (h : truthy args.camera ≠ truthy args.time) :
    (main args env).cameras_read = false ∧
    (main args env).http_requests = [] ∧
    (main args env).trigger_attempts = [] ∧
    (main args env).fs = env.fs0 ∧
    (main args env).outcome = Except.ok () := by
  have hb1 : (truthy args.camera && truthy args.time) = false := by
    cases hx : truthy args.camera <;> cases hy : truthy args.time <;> simp_all
  have hb2 : (!truthy args.camera && !truthy args.time) = false := by
    cases hx : truthy args.camera <;> cases hy : truthy args.time <;> simp_all
  simp [main, hb1, hb2]

/-- Counterexample to C10 as stated: with the camera flag supplied as the
empty string and the transition flag absent, the regeneration mode runs,
reading cameras.yaml and attempting both trigger files. -/
theorem main_single_flag_refuted :
    (Args.mk false false (some "") none).camera = some "" ∧
    (Args.mk false false (some "") none).time = none ∧
    (main (Args.mk false false (some "") none) envC10).cameras_read = true ∧
    (main (Args.mk false false (some "") none) envC10).trigger_attempts =
      ["/etc/cron.d/sunrise-front", "/etc/cron.d/sunset-front"] :=
  ⟨rfl, rfl, by decide, by decide⟩

/-- Witness for the amended C10: camera flag front, transition flag absent. -/
theorem main_single_flag_noop_witness :
    (main (Args.mk false false (some "front") none) envC10).cameras_read = false ∧
    (main (Args.mk false false (some "front") none) envC10).http_requests = [] ∧
    (main (Args.mk false false (some "front") none) envC10).trigger_attempts = [] ∧
    (main (Args.mk false false (some "front") none) envC10).fs = envC10.fs0 ∧
    (main (Args.mk false false (some "front") none) envC10).outcome = Except.ok () :=
  main_single_flag_noop (Args.mk false false (some "front") none) envC10 (by decide)

end DahuaDayNight
